import Mathlib

/-!
Shallow embedding of the token-gated LLM pipeline (`app/` package):
the agent state (`app/state.py`), the consumption ledger
(`app/token_accounting.py`), the five pipeline nodes (`app/nodes/*.py`),
the router and terminal actions (`app/graph.py`), and the loop the
compiled LangGraph executes (planner -> retriever -> generator -> critic
-> router -> finalize | summarizer | planner).

Python integers are modelled as `Int`, the float `quality_score` as `ℚ`
(every constant the code compares it against is an exact decimal),
Python dicts as association lists, and every external collaborator
(OpenAI chat completions, the tiktoken encoder, the Chroma vector store,
`json.loads`) as an oracle argument: the node functions are parametrised
over what the external world returns, so theorems quantify over all
possible service behaviours.  The uncaught-exception path of the critic
(an `AttributeError` escaping the `try`) is modelled with `Except`.
-/

set_option maxRecDepth 20000

namespace TokenGating

/-- Model of Python `str.startswith` on the underlying character
sequences: `frontSeg p s` is true when `p` is an initial segment of `s`. -/
def frontSeg : List Char → List Char → Bool
  | [], _ => true
  | _ :: _, [] => false
  | c :: ps, d :: ss => c == d && frontSeg ps ss

/-- Model of the Python expression `s.startswith(p)`. -/
def pyStartswith (s p : String) : Bool := frontSeg p.data s.data

/-- Model of Python `a or b` where `a` is an optional string (`None` and
the empty string are falsy): covers expressions such as
`response.choices[0].message.content or ""`. -/
def pyOr (a : Option String) (b : String) : String :=
  match a with
  | none => b
  | some t => if t = "" then b else t

/-- Model of Python `d.get(k, 0)` on a dict represented as an association
list (first occurrence wins; the operations below keep keys unique). -/
def dictGet (d : List (String × Int)) (k : String) : Int :=
  match d with
  | [] => 0
  | (k₀, v₀) :: rest => if k₀ = k then v₀ else dictGet rest k

/-- Model of Python `d[k] = v`: update the entry for `k` in place,
appending a new entry when `k` is absent. -/
def dictSet (d : List (String × Int)) (k : String) (v : Int) : List (String × Int) :=
  match d with
  | [] => [(k, v)]
  | (k₀, v₀) :: rest => if k₀ = k then (k, v) :: rest else (k₀, v₀) :: dictSet rest k v

/-- Model of Python `sum(d.values())`. -/
def sumValues (d : List (String × Int)) : Int :=
  (d.map Prod.snd).sum

/-- State record `AgentState` from `app/state.py`.  The TypedDict is total
there in practice: `initialize_state` populates every key, and every node
reads missing keys through `.get` with exactly the defaults these fields
carry. -/
structure AgentState where
  user_query : String
  plan : String
  retrieved_chunks : List String
  draft_answer : String
  final_answer : String
  total_token_budget : Int
  remaining_tokens : Int
  tokens_used : List (String × Int)
  step_count : Int
  max_steps : Int
  quality_score : ℚ
  status : String
deriving DecidableEq, Repr

/-- Definition `initialize_state` from `app/state.py`. -/
def initialize_state (user_query : String) (total_token_budget : Int)
    (max_steps : Int) : AgentState where
  user_query := user_query
  plan := ""
  retrieved_chunks := []
  draft_answer := ""
  final_answer := ""
  total_token_budget := total_token_budget
  remaining_tokens := total_token_budget
  tokens_used := []
  step_count := 0
  max_steps := max_steps
  quality_score := 0
  status := "INIT"

/-- Definition `estimate_tokens` from `app/token_accounting.py`,
parametrised by the tiktoken encoder (`encode text` models
`len(encoder.encode(text))`, a natural number).  The guard models
`if not text: return 0`. -/
def estimate_tokens (encode : String → Nat) (text : String) : Int :=
  if text = "" then 0 else (encode text : Int)

/-- Definition `consume_tokens` from `app/token_accounting.py`: the
centralized ledger.  It is a total function — it always succeeds. -/
def consume_tokens (state : AgentState) (node_name : String)
    (estimated_tokens : Int) : AgentState :=
  let remaining := state.remaining_tokens - max 0 estimated_tokens
  let state₁ := {state with remaining_tokens := max remaining 0}
  let prev := dictGet state₁.tokens_used node_name
  {state₁ with
    tokens_used := dictSet state₁.tokens_used node_name (prev + max 0 estimated_tokens)}

/-- Record for one OpenAI `chat.completions.create` response, as the node
code reads it: `content` models `response.choices[0].message.content`
(possibly `None`), `usage` models `response.usage` as the reported
`(prompt_tokens, completion_tokens)` pair when present. -/
structure ChatResponse where
  content : Option String
  usage : Option (Nat × Nat)

/-- Record of an external service interaction performed by a node: an
OpenAI chat call attributed to a stage, or a vector-store similarity
query with the requested result count `k`. -/
inductive ExtCall where
  | chat (stage : String)
  | search (query : String) (k : Int)
deriving DecidableEq, Repr

/-- Constant from `app/nodes/planner.py`. -/
def PLANNER_REQUIRED_BUDGET : Int := 800

/-- Constant from `app/nodes/generator.py`. -/
def GENERATOR_REQUIRED_BUDGET : Int := 2500

/-- Constant from `app/nodes/critic.py`. -/
def CRITIC_REQUIRED_BUDGET : Int := 800

/-- Constant from `app/nodes/summarizer.py`. -/
def SUMMARIZER_BUDGET : Int := 400

/-- Constant from `app/nodes/retriever.py`: budget reserved for the
generator. -/
def MIN_GENERATION_BUDGET : Int := 3000

/-- Constant from `app/nodes/retriever.py`: approximate tokens per
retrieved chunk. -/
def TOKENS_PER_CHUNK : Int := 400

/-- Constant from `app/graph.py`: budget threshold for forced
summarization. -/
def BUDGET_THRESHOLD : Int := 500

/-- Constant from `app/graph.py`: quality threshold for completion
(0.85). -/
def QUALITY_THRESHOLD : ℚ := mkRat 85 100

/-- Neutral default quality score (0.7) used by the critic fallbacks. -/
def NEUTRAL_SCORE : ℚ := mkRat 7 10

/-- System prompt string from `app/nodes/planner.py`. -/
def PLANNER_SYSTEM_PROMPT : String :=
  "You are a concise planning assistant.\nGiven a user query, produce a brief execution plan (2-4 steps) for answering it.\nKeep your plan under 150 words. Be direct and actionable."

/-- System prompt string from `app/nodes/generator.py`. -/
def GENERATOR_SYSTEM_PROMPT : String :=
  "You are a helpful assistant that answers questions based on the provided context.\nUse the context to give accurate, well-structured answers.\nIf the context doesn\x27t contain relevant information, say so clearly.\nBe concise but thorough."

/-- System prompt string from `app/nodes/critic.py`. -/
def CRITIC_SYSTEM_PROMPT : String :=
  "You are a quality evaluator for AI-generated answers.\nEvaluate the answer on these criteria:\n1. Relevance to the question\n2. Accuracy based on provided context\n3. Completeness\n4. Clarity\n\nRespond with a JSON object containing:\n- \"score\": a number between 0.0 and 1.0\n- \"feedback\": a brief explanation (1-2 sentences)\n\nExample response:\n\x7b\"score\": 0.85, \"feedback\": \"Good coverage of the topic with clear explanations.\"\x7d"

/-- System prompt string from `app/nodes/summarizer.py`. -/
def SUMMARIZER_SYSTEM_PROMPT : String :=
  "You are a summarization assistant.\nGiven a draft answer, produce a concise summary that captures the key points.\nKeep your summary under 100 words."

/-- Node `planner_node` from `app/nodes/planner.py`, parametrised by the
tiktoken encoder and the chat response the OpenAI client returns.  The
second component lists the external calls the invocation performed. -/
def planner_node (encode : String → Nat) (svc : ChatResponse)
    (state : AgentState) : AgentState × List ExtCall :=
  if state.remaining_tokens < PLANNER_REQUIRED_BUDGET then
    ({state with status := "INSUFFICIENT_BUDGET_FOR_PLANNING"}, [])
  else
    let user_query := state.user_query
    let plan_text := pyOr svc.content ("")
    let state₁ := {state with plan := plan_text}
    let total_tokens : Int :=
      match svc.usage with
      | some (p, c) => (p : Int) + (c : Int)
      | none => estimate_tokens encode (PLANNER_SYSTEM_PROMPT ++ user_query ++ plan_text)
    let state₂ := consume_tokens state₁ ("planner") total_tokens
    ({state₂ with step_count := state₂.step_count + 1}, [ExtCall.chat ("planner")])

/-- Node `retriever_node` from `app/nodes/retriever.py`, parametrised by
the tiktoken encoder and the vector store (`similarity_search query k` is
the chunk list the store returns, possibly shorter than `k`). -/
def retriever_node (encode : String → Nat)
    (similarity_search : String → Int → List String)
    (state : AgentState) : AgentState × List ExtCall :=
  let remaining := state.remaining_tokens
  let available_for_context := remaining - MIN_GENERATION_BUDGET
  if available_for_context ≤ 0 then
    ({state with retrieved_chunks := []}, [])
  else
    let top_k := max 1 (available_for_context / TOKENS_PER_CHUNK)
    let top_k := min top_k 10
    let user_query := state.user_query
    let chunks := similarity_search user_query top_k
    let state₁ := {state with retrieved_chunks := chunks}
    let chunk_text := String.intercalate ("\n\n") chunks
    let estimated_cost := if chunks = [] then 0 else estimate_tokens encode chunk_text
    (consume_tokens state₁ ("retriever") estimated_cost,
     [ExtCall.search user_query top_k])

/-- Node `generator_node` from `app/nodes/generator.py`. -/
def generator_node (encode : String → Nat) (svc : ChatResponse)
    (state : AgentState) : AgentState × List ExtCall :=
  if state.remaining_tokens < GENERATOR_REQUIRED_BUDGET then
    ({state with status := "INSUFFICIENT_BUDGET_FOR_GENERATION"}, [])
  else
    let user_query := state.user_query
    let chunks := state.retrieved_chunks
    let plan := state.plan
    let context_section :=
      if chunks ≠ [] then
        "## Retrieved Context\n\n" ++ String.intercalate ("\n\n---\n\n") chunks
      else
        "No context was retrieved. Answer based on general knowledge."
    let user_message :=
      "## Plan\n" ++ plan ++ "\n\n" ++ context_section ++ "\n\n## Question\n" ++
        user_query ++ "\n\nPlease provide a comprehensive answer based on the above context and plan."
    let answer_text := pyOr svc.content ("")
    let state₁ := {state with draft_answer := answer_text}
    let total_tokens : Int :=
      match svc.usage with
      | some (p, c) => (p : Int) + (c : Int)
      | none => estimate_tokens encode (GENERATOR_SYSTEM_PROMPT ++ user_message ++ answer_text)
    (consume_tokens state₁ ("generator") total_tokens, [ExtCall.chat ("generator")])

/-- Value tree that `json.loads` produces on success.  A JSON string is
carried as the outcome of Python `float()` applied to it: `jstr (some q)`
is a string that converts to the number `q`, `jstr none` one on which
`float` raises `ValueError`.  JSON arrays never reach a conversion, so
their elements are irrelevant and elided. -/
inductive PyJson where
  | jnull
  | jbool (b : Bool)
  | jnum (q : ℚ)
  | jstr (floatVal : Option ℚ)
  | jarr
  | jobj (fields : List (String × PyJson))

/-- Model of Python `fields.get(key)` on a dict produced by `json.loads`
(keys are unique there, first occurrence wins here). -/
def jsonGet (fields : List (String × PyJson)) (key : String) : Option PyJson :=
  match fields with
  | [] => none
  | (k₀, v₀) :: rest => if k₀ = key then some v₀ else jsonGet rest key

/-- Model of Python `float(x)` on a JSON value: numbers and booleans
convert, convertible strings convert, everything else raises
(`ValueError` or `TypeError`, both members of the caught tuple in the
critic), modelled as `none`. -/
def pyFloat : PyJson → Option ℚ
  | .jnum q => some q
  | .jbool b => some (if b then 1 else 0)
  | .jstr v => v
  | _ => none

/-- Critic score computation from `app/nodes/critic.py` lines 75-84:
`parsed` is the outcome of `json.loads(critic_response)` (`none` models a
`json.JSONDecodeError`, which the `except` clause catches).  When the
parsed document is not a dict, `parsed.get("score", 0.7)` raises
`AttributeError`, which the `except (json.JSONDecodeError, ValueError,
TypeError)` clause does NOT catch: that exception escapes, modelled as
`Except.error`. -/
def critic_score (parsed : Option PyJson) : Except String ℚ :=
  match parsed with
  | none => .ok NEUTRAL_SCORE
  | some (.jobj fields) =>
    let raw := (jsonGet fields ("score")).getD (.jnum NEUTRAL_SCORE)
    match pyFloat raw with
    | some q => .ok (max 0 (min 1 q))
    | none => .ok NEUTRAL_SCORE
  | some _ => .error ("AttributeError")

/-- Node `critic_node` from `app/nodes/critic.py`.  `parsed` is the
outcome of `json.loads` on the response content (oracle-supplied
alongside the raw content, since `json.loads` is an external library
function). -/
def critic_node (encode : String → Nat) (svc : ChatResponse)
    (parsed : Option PyJson) (state : AgentState) :
    Except String (AgentState × List ExtCall) :=
  if state.remaining_tokens < CRITIC_REQUIRED_BUDGET then
    .ok ({state with quality_score := NEUTRAL_SCORE}, [])
  else
    let user_query := state.user_query
    let draft_answer := state.draft_answer
    let chunks := state.retrieved_chunks
    let context_summary :=
      if chunks ≠ [] then toString chunks.length ++ (" chunks retrieved") else ("No context")
    let user_message :=
      "## Original Question\n" ++ user_query ++ "\n\n## Context Available\n" ++
        context_summary ++ "\n\n## Generated Answer\n" ++ draft_answer ++
        "\n\nPlease evaluate this answer and provide a quality score."
    let critic_response := pyOr svc.content ("")
    match critic_score parsed with
    | .error e => .error e
    | .ok score =>
      let state₁ := {state with quality_score := score}
      let total_tokens : Int :=
        match svc.usage with
        | some (p, c) => (p : Int) + (c : Int)
        | none => estimate_tokens encode (CRITIC_SYSTEM_PROMPT ++ user_message ++ critic_response)
      .ok (consume_tokens state₁ ("critic") total_tokens, [ExtCall.chat ("critic")])

/-- Fallback answer from `app/nodes/summarizer.py`. -/
def SUMMARIZER_FALLBACK : String :=
  "Unable to generate an answer due to budget constraints."

/-- Node `summarizer_node` from `app/nodes/summarizer.py`.  The guard
models Python `if draft and state.get("remaining_tokens", 0) >=
SUMMARIZER_BUDGET` (a string is truthy when nonempty). -/
def summarizer_node (encode : String → Nat) (svc : ChatResponse)
    (state : AgentState) : AgentState × List ExtCall :=
  let draft := state.draft_answer
  if draft ≠ "" ∧ SUMMARIZER_BUDGET ≤ state.remaining_tokens then
    let summary := pyOr svc.content draft
    let state₁ := {state with final_answer := summary}
    let total_tokens : Int :=
      match svc.usage with
      | some (p, c) => (p : Int) + (c : Int)
      | none => estimate_tokens encode (SUMMARIZER_SYSTEM_PROMPT ++ draft ++ summary)
    let state₂ := consume_tokens state₁ ("summarizer") total_tokens
    ({state₂ with status := "COMPLETED_WITH_SUMMARY"}, [ExtCall.chat ("summarizer")])
  else if draft ≠ "" then
    ({state with final_answer := draft, status := "COMPLETED_WITH_SUMMARY"}, [])
  else
    ({state with final_answer := SUMMARIZER_FALLBACK,
                 status := "COMPLETED_WITH_SUMMARY"}, [])

/-- Node `finalize_node` from `app/graph.py`. -/
def finalize_node (state : AgentState) : AgentState :=
  {state with final_answer := state.draft_answer, status := "COMPLETED"}

/-- Router `should_continue` from `app/graph.py`: the budget-driven
control-flow decision. -/
def should_continue (state : AgentState) : String :=
  if pyStartswith state.status ("INSUFFICIENT_BUDGET") then ("summarize")
  else if state.remaining_tokens ≤ BUDGET_THRESHOLD then ("summarize")
  else if QUALITY_THRESHOLD ≤ state.quality_score then ("end")
  else if state.max_steps ≤ state.step_count then ("summarize")
  else ("loop")

/-- Record of everything the external world feeds one pass of the loop
plus the summarizer that may follow it. -/
structure PassOracle where
  planner : ChatResponse
  similarity_search : String → Int → List String
  generator : ChatResponse
  critic : ChatResponse
  criticParsed : Option PyJson
  summarizer : ChatResponse

/-- One linear pass of the compiled graph: planner -> retriever ->
generator -> critic (edges added in `build_graph`).  Propagates the
critic exception. -/
def runPass (encode : String → Nat) (o : PassOracle) (s : AgentState) :
    Except String AgentState :=
  match critic_node encode o.critic o.criticParsed
      ((generator_node encode o.generator
        ((retriever_node encode o.similarity_search
          ((planner_node encode o.planner s).1)).1)).1) with
  | .error e => .error e
  | .ok r => .ok r.1

/-- Loop that `build_graph` assembles: run a pass, evaluate the router
once, and either finalize, summarize, or go back to the planner.  The
oracle list doubles as fuel; the returned `Nat` counts router
evaluations.  An `.error` covers both a propagated critic exception and
an exhausted oracle list. -/
def runLoop (encode : String → Nat) :
    List PassOracle → AgentState → Except String (AgentState × Nat)
  | [], _ => .error ("oracle list exhausted")
  | o :: rest, s =>
    match runPass encode o s with
    | .error e => .error e
    | .ok s₁ =>
      if should_continue s₁ = "end" then
        .ok (finalize_node s₁, 1)
      else if should_continue s₁ = "summarize" then
        .ok ((summarizer_node encode o.summarizer s₁).1, 1)
      else
        match runLoop encode rest s₁ with
        | .error e => .error e
        | .ok (f, n) => .ok (f, n + 1)

/-- Predicate for a `json.loads` outcome that does not hit the critic
AttributeError path: either a parse failure or a dict. -/
def parsedSafe : Option PyJson → Bool
  | none => true
  | some (.jobj _) => true
  | some _ => false

/-- Budget ledger invariant from the spec: the remaining budget is the
total minus the ledger sum, clamped at zero. -/
def BudgetInv (s : AgentState) : Prop :=
  s.remaining_tokens = max 0 (s.total_token_budget - sumValues s.tokens_used)

/-- States reachable from `initialize_state` (with a nonnegative budget)
by any sequence of the pipeline operations, each under arbitrary
external-service behaviour. -/
inductive Reachable : AgentState → Prop
  | init (q : String) (b m : Int) (hb : 0 ≤ b) : Reachable (initialize_state q b m)
  | planner (encode : String → Nat) (svc : ChatResponse) {s : AgentState}
      (h : Reachable s) : Reachable (planner_node encode svc s).1
  | retriever (encode : String → Nat) (f : String → Int → List String)
      {s : AgentState} (h : Reachable s) : Reachable (retriever_node encode f s).1
  | generator (encode : String → Nat) (svc : ChatResponse) {s : AgentState}
      (h : Reachable s) : Reachable (generator_node encode svc s).1
  | critic (encode : String → Nat) (svc : ChatResponse) (parsed : Option PyJson)
      {s : AgentState} {r : AgentState × List ExtCall} (h : Reachable s)
      (hr : critic_node encode svc parsed s = .ok r) : Reachable r.1
  | summarizer (encode : String → Nat) (svc : ChatResponse) {s : AgentState}
      (h : Reachable s) : Reachable (summarizer_node encode svc s).1
  | finalize {s : AgentState} (h : Reachable s) : Reachable (finalize_node s)
  | consume (name : String) (cost : Int) {s : AgentState}
      (h : Reachable s) : Reachable (consume_tokens s name cost)

/-- Helper mirroring the final two lines of the non-degraded planner
path: increment `step_count` by one. -/
def bump_step (s : AgentState) : AgentState :=
  {s with step_count := s.step_count + 1}

/-- Helper mirroring a Python `state["status"] = value` assignment. -/
def set_status (s : AgentState) (st : String) : AgentState :=
  {s with status := st}

/-- Number of chunks the retriever requests from the vector store once
the affordable context budget is positive, exactly as computed on the
non-degraded path of `retriever_node`. -/
def retriever_top_k (affordable : Int) : Int :=
  min (max 1 (affordable / TOKENS_PER_CHUNK)) 10

/-! ### Ledger algebra -/

/-- Unfolding equation for `runLoop` on a nonempty oracle list. -/
theorem runLoop_cons (encode : String → Nat) (o : PassOracle)
    (rest : List PassOracle) (s : AgentState) :
    runLoop encode (o :: rest) s =
      match runPass encode o s with
      | .error e => .error e
      | .ok s₁ =>
        if should_continue s₁ = "end" then
          .ok (finalize_node s₁, 1)
        else if should_continue s₁ = "summarize" then
          .ok ((summarizer_node encode o.summarizer s₁).1, 1)
        else
          match runLoop encode rest s₁ with
          | .error e => .error e
          | .ok (f, n) => .ok (f, n + 1) := rfl

theorem dictGet_dictSet (d : List (String × Int)) (k k' : String) (v : Int) :
    dictGet (dictSet d k v) k' = if k = k' then v else dictGet d k' := by
  induction d with
  | nil =>
    by_cases h : k = k' <;> simp [dictGet, dictSet, h]
  | cons hd tl ih =>
    obtain ⟨k₀, v₀⟩ := hd
    by_cases h₀ : k₀ = k
    · subst h₀
      by_cases h : k₀ = k'
      · subst h
        simp [dictSet, dictGet]
      · simp [dictSet, dictGet, h]
    · by_cases h : k = k'
      · subst h
        simp [dictSet, dictGet, h₀, ih, Ne.symm h₀]
      · simp [dictSet, dictGet, h₀, h, ih]

theorem sumValues_dictSet (d : List (String × Int)) (k : String) (c : Int) :
    sumValues (dictSet d k (dictGet d k + c)) = sumValues d + c := by
  induction d with
  | nil => simp [sumValues, dictGet, dictSet]
  | cons hd tl ih =>
    obtain ⟨k₀, v₀⟩ := hd
    by_cases h₀ : k₀ = k
    · simp [sumValues, dictGet, dictSet, h₀]
      ring
    · simp only [dictGet, dictSet, if_neg h₀, sumValues, List.map_cons, List.sum_cons] at ih ⊢
      rw [ih]
      ring

theorem consume_tokens_eq (s : AgentState) (n : String) (c : Int) :
    consume_tokens s n c =
      {s with remaining_tokens := max (s.remaining_tokens - max 0 c) 0,
              tokens_used := dictSet s.tokens_used n (dictGet s.tokens_used n + max 0 c)} := rfl

theorem budgetInv_ext {s s' : AgentState}
    (hrem : s'.remaining_tokens = s.remaining_tokens)
    (htot : s'.total_token_budget = s.total_token_budget)
    (htu : s'.tokens_used = s.tokens_used)
    (h : BudgetInv s) : BudgetInv s' := by
  unfold BudgetInv at *
  rw [hrem, htot, htu]
  exact h

theorem budgetInv_consume {s : AgentState} (n : String) (c : Int)
    (h : BudgetInv s) : BudgetInv (consume_tokens s n c) := by
  unfold BudgetInv at *
  show max (s.remaining_tokens - max 0 c) 0 =
    max 0 (s.total_token_budget - sumValues (dictSet s.tokens_used n (dictGet s.tokens_used n + max 0 c)))
  rw [sumValues_dictSet]
  omega

/-! ### Node shape lemmas -/

theorem planner_node_degraded (encode : String → Nat) (svc : ChatResponse)
    {s : AgentState} (h : s.remaining_tokens < PLANNER_REQUIRED_BUDGET) :
    planner_node encode svc s = ({s with status := "INSUFFICIENT_BUDGET_FOR_PLANNING"}, []) := by
  unfold planner_node
  rw [if_pos h]

theorem planner_node_run (encode : String → Nat) (svc : ChatResponse)
    {s : AgentState} (h : ¬ s.remaining_tokens < PLANNER_REQUIRED_BUDGET) :
    ∃ t : Int, planner_node encode svc s =
      (bump_step (consume_tokens {s with plan := pyOr svc.content ("")} ("planner") t),
       [ExtCall.chat ("planner")]) := by
  unfold planner_node
  rw [if_neg h]
  exact ⟨_, rfl⟩

theorem generator_node_degraded (encode : String → Nat) (svc : ChatResponse)
    {s : AgentState} (h : s.remaining_tokens < GENERATOR_REQUIRED_BUDGET) :
    generator_node encode svc s = ({s with status := "INSUFFICIENT_BUDGET_FOR_GENERATION"}, []) := by
  unfold generator_node
  rw [if_pos h]

theorem generator_node_run (encode : String → Nat) (svc : ChatResponse)
    {s : AgentState} (h : ¬ s.remaining_tokens < GENERATOR_REQUIRED_BUDGET) :
    ∃ t : Int, generator_node encode svc s =
      (consume_tokens {s with draft_answer := pyOr svc.content ("")} ("generator") t,
       [ExtCall.chat ("generator")]) := by
  unfold generator_node
  rw [if_neg h]
  exact ⟨_, rfl⟩

theorem retriever_node_empty (encode : String → Nat)
    (f : String → Int → List String) {s : AgentState}
    (h : s.remaining_tokens - MIN_GENERATION_BUDGET ≤ 0) :
    retriever_node encode f s = ({s with retrieved_chunks := []}, []) := by
  unfold retriever_node
  rw [if_pos h]

theorem retriever_node_run (encode : String → Nat)
    (f : String → Int → List String) {s : AgentState}
    (h : ¬ s.remaining_tokens - MIN_GENERATION_BUDGET ≤ 0) :
    ∃ t : Int, retriever_node encode f s =
      (consume_tokens {s with retrieved_chunks := f s.user_query (retriever_top_k (s.remaining_tokens - MIN_GENERATION_BUDGET))} ("retriever") t,
       [ExtCall.search s.user_query (retriever_top_k (s.remaining_tokens - MIN_GENERATION_BUDGET))]) := by
  unfold retriever_node
  rw [if_neg h]
  exact ⟨_, rfl⟩

theorem critic_node_degraded (encode : String → Nat) (svc : ChatResponse)
    (parsed : Option PyJson) {s : AgentState}
    (h : s.remaining_tokens < CRITIC_REQUIRED_BUDGET) :
    critic_node encode svc parsed s = .ok ({s with quality_score := NEUTRAL_SCORE}, []) := by
  unfold critic_node
  rw [if_pos h]

theorem critic_node_run (encode : String → Nat) (svc : ChatResponse)
    (parsed : Option PyJson) {s : AgentState} {q : ℚ}
    (h : ¬ s.remaining_tokens < CRITIC_REQUIRED_BUDGET)
    (hq : critic_score parsed = .ok q) :
    ∃ t : Int, critic_node encode svc parsed s =
      .ok (consume_tokens {s with quality_score := q} ("critic") t, [ExtCall.chat ("critic")]) := by
  unfold critic_node
  rw [if_neg h, hq]
  exact ⟨_, rfl⟩

theorem critic_node_raises (encode : String → Nat) (svc : ChatResponse)
    (parsed : Option PyJson) {s : AgentState} {e : String}
    (h : ¬ s.remaining_tokens < CRITIC_REQUIRED_BUDGET)
    (he : critic_score parsed = .error e) :
    critic_node encode svc parsed s = .error e := by
  unfold critic_node
  rw [if_neg h, he]

theorem critic_score_safe (parsed : Option PyJson) (hps : parsedSafe parsed = true) :
    ∃ q : ℚ, critic_score parsed = .ok q ∧ 0 ≤ q ∧ q ≤ 1 := by
  cases parsed with
  | none => exact ⟨NEUTRAL_SCORE, rfl, by decide, by decide⟩
  | some v =>
    cases v with
    | jobj fields =>
      rcases hf : pyFloat ((jsonGet fields ("score")).getD (.jnum NEUTRAL_SCORE)) with _ | q
      · refine ⟨NEUTRAL_SCORE, ?_, by decide, by decide⟩
        simp only [critic_score]
        rw [hf]
      · refine ⟨max 0 (min 1 q), ?_, le_max_left 0 _,
          max_le (by norm_num) (min_le_left 1 q)⟩
        simp only [critic_score]
        rw [hf]
    | jnull => simp [parsedSafe] at hps
    | jbool b => simp [parsedSafe] at hps
    | jnum q => simp [parsedSafe] at hps
    | jstr v => simp [parsedSafe] at hps
    | jarr => simp [parsedSafe] at hps

theorem summarizer_node_status (encode : String → Nat) (svc : ChatResponse)
    (s : AgentState) :
    (summarizer_node encode svc s).1.status = "COMPLETED_WITH_SUMMARY" := by
  unfold summarizer_node
  by_cases h₁ : s.draft_answer ≠ "" ∧ SUMMARIZER_BUDGET ≤ s.remaining_tokens
  · rw [if_pos h₁]
  · rw [if_neg h₁]
    by_cases h₂ : s.draft_answer ≠ "" <;> simp [h₂]

/-! ### Frame lemmas: which fields each operation can touch -/

theorem consume_tokens_frame (s : AgentState) (n : String) (c : Int) :
    (consume_tokens s n c).user_query = s.user_query ∧
    (consume_tokens s n c).plan = s.plan ∧
    (consume_tokens s n c).retrieved_chunks = s.retrieved_chunks ∧
    (consume_tokens s n c).draft_answer = s.draft_answer ∧
    (consume_tokens s n c).final_answer = s.final_answer ∧
    (consume_tokens s n c).total_token_budget = s.total_token_budget ∧
    (consume_tokens s n c).step_count = s.step_count ∧
    (consume_tokens s n c).max_steps = s.max_steps ∧
    (consume_tokens s n c).quality_score = s.quality_score ∧
    (consume_tokens s n c).status = s.status :=
  ⟨rfl, rfl, rfl, rfl, rfl, rfl, rfl, rfl, rfl, rfl⟩

theorem planner_node_step (encode : String → Nat) (svc : ChatResponse)
    (s : AgentState) :
    (planner_node encode svc s).1.max_steps = s.max_steps ∧
    (planner_node encode svc s).1.total_token_budget = s.total_token_budget ∧
    ((planner_node encode svc s).1.step_count = s.step_count + 1 ∨
      ((planner_node encode svc s).1.step_count = s.step_count ∧
        (planner_node encode svc s).1.status = "INSUFFICIENT_BUDGET_FOR_PLANNING")) := by
  by_cases hp : s.remaining_tokens < PLANNER_REQUIRED_BUDGET
  · rw [planner_node_degraded encode svc hp]
    exact ⟨rfl, rfl, Or.inr ⟨rfl, rfl⟩⟩
  · obtain ⟨t, ht⟩ := planner_node_run encode svc hp
    rw [ht]
    exact ⟨rfl, rfl, Or.inl rfl⟩

theorem retriever_node_frame (encode : String → Nat)
    (f : String → Int → List String) (s : AgentState) :
    (retriever_node encode f s).1.user_query = s.user_query ∧
    (retriever_node encode f s).1.plan = s.plan ∧
    (retriever_node encode f s).1.draft_answer = s.draft_answer ∧
    (retriever_node encode f s).1.final_answer = s.final_answer ∧
    (retriever_node encode f s).1.total_token_budget = s.total_token_budget ∧
    (retriever_node encode f s).1.step_count = s.step_count ∧
    (retriever_node encode f s).1.max_steps = s.max_steps ∧
    (retriever_node encode f s).1.quality_score = s.quality_score ∧
    (retriever_node encode f s).1.status = s.status := by
  by_cases h : s.remaining_tokens - MIN_GENERATION_BUDGET ≤ 0
  · rw [retriever_node_empty encode f h]
    exact ⟨rfl, rfl, rfl, rfl, rfl, rfl, rfl, rfl, rfl⟩
  · obtain ⟨t, ht⟩ := retriever_node_run encode f h
    rw [ht]
    exact ⟨rfl, rfl, rfl, rfl, rfl, rfl, rfl, rfl, rfl⟩

theorem generator_node_frame (encode : String → Nat) (svc : ChatResponse)
    (s : AgentState) :
    (generator_node encode svc s).1.user_query = s.user_query ∧
    (generator_node encode svc s).1.plan = s.plan ∧
    (generator_node encode svc s).1.total_token_budget = s.total_token_budget ∧
    (generator_node encode svc s).1.step_count = s.step_count ∧
    (generator_node encode svc s).1.max_steps = s.max_steps ∧
    (generator_node encode svc s).1.quality_score = s.quality_score := by
  by_cases h : s.remaining_tokens < GENERATOR_REQUIRED_BUDGET
  · rw [generator_node_degraded encode svc h]
    exact ⟨rfl, rfl, rfl, rfl, rfl, rfl⟩
  · obtain ⟨t, ht⟩ := generator_node_run encode svc h
    rw [ht]
    exact ⟨rfl, rfl, rfl, rfl, rfl, rfl⟩

theorem generator_node_status (encode : String → Nat) (svc : ChatResponse)
    (s : AgentState) :
    (generator_node encode svc s).1.status = s.status ∨
    (generator_node encode svc s).1.status = "INSUFFICIENT_BUDGET_FOR_GENERATION" := by
  by_cases h : s.remaining_tokens < GENERATOR_REQUIRED_BUDGET
  · rw [generator_node_degraded encode svc h]
    exact Or.inr rfl
  · obtain ⟨t, ht⟩ := generator_node_run encode svc h
    rw [ht]
    exact Or.inl rfl

theorem critic_node_frame (encode : String → Nat) (svc : ChatResponse)
    (parsed : Option PyJson) {s : AgentState} {r : AgentState × List ExtCall}
    (hr : critic_node encode svc parsed s = .ok r) :
    r.1.user_query = s.user_query ∧
    r.1.plan = s.plan ∧
    r.1.retrieved_chunks = s.retrieved_chunks ∧
    r.1.draft_answer = s.draft_answer ∧
    r.1.final_answer = s.final_answer ∧
    r.1.total_token_budget = s.total_token_budget ∧
    r.1.step_count = s.step_count ∧
    r.1.max_steps = s.max_steps ∧
    r.1.status = s.status := by
  by_cases h : s.remaining_tokens < CRITIC_REQUIRED_BUDGET
  · rw [critic_node_degraded encode svc parsed h] at hr
    injection hr with hr
    rw [← hr]
    exact ⟨rfl, rfl, rfl, rfl, rfl, rfl, rfl, rfl, rfl⟩
  · cases hsc : critic_score parsed with
    | error e =>
      rw [critic_node_raises encode svc parsed h hsc] at hr
      exact absurd hr (by simp)
    | ok q =>
      obtain ⟨t, ht⟩ := critic_node_run encode svc parsed h hsc
      rw [ht] at hr
      injection hr with hr
      rw [← hr]
      exact ⟨rfl, rfl, rfl, rfl, rfl, rfl, rfl, rfl, rfl⟩

theorem critic_node_ok_of_safe (encode : String → Nat) (svc : ChatResponse)
    (parsed : Option PyJson) (s : AgentState)
    (hps : parsedSafe parsed = true) :
    ∃ r, critic_node encode svc parsed s = .ok r := by
  obtain ⟨q, hq, _, _⟩ := critic_score_safe parsed hps
  by_cases h : s.remaining_tokens < CRITIC_REQUIRED_BUDGET
  · exact ⟨_, critic_node_degraded encode svc parsed h⟩
  · obtain ⟨t, ht⟩ := critic_node_run encode svc parsed h hq
    exact ⟨_, ht⟩

theorem summarizer_node_call (encode : String → Nat) (svc : ChatResponse)
    {s : AgentState} (h : s.draft_answer ≠ "" ∧ SUMMARIZER_BUDGET ≤ s.remaining_tokens) :
    ∃ t : Int, summarizer_node encode svc s =
      (set_status (consume_tokens {s with final_answer := pyOr svc.content s.draft_answer} ("summarizer") t) ("COMPLETED_WITH_SUMMARY"),
       [ExtCall.chat ("summarizer")]) := by
  unfold summarizer_node
  rw [if_pos h]
  exact ⟨_, rfl⟩

theorem summarizer_node_copy (encode : String → Nat) (svc : ChatResponse)
    {s : AgentState} (h : ¬ (s.draft_answer ≠ "" ∧ SUMMARIZER_BUDGET ≤ s.remaining_tokens))
    (hd : s.draft_answer ≠ "") :
    summarizer_node encode svc s =
      ({s with final_answer := s.draft_answer, status := "COMPLETED_WITH_SUMMARY"}, []) := by
  unfold summarizer_node
  rw [if_neg h, if_pos hd]

theorem summarizer_node_fallback (encode : String → Nat) (svc : ChatResponse)
    {s : AgentState} (hd : s.draft_answer = "") :
    summarizer_node encode svc s =
      ({s with final_answer := SUMMARIZER_FALLBACK, status := "COMPLETED_WITH_SUMMARY"}, []) := by
  unfold summarizer_node
  rw [if_neg (by simp [hd]), if_neg (by simp [hd])]

/-! ### Router lemmas -/

theorem should_continue_of_degraded {s : AgentState}
    (h : pyStartswith s.status ("INSUFFICIENT_BUDGET") = true) :
    should_continue s = "summarize" := by
  unfold should_continue
  rw [if_pos h]

theorem should_continue_cases (s : AgentState) :
    should_continue s = "end" ∨ should_continue s = "summarize" ∨
      should_continue s = "loop" := by
  unfold should_continue
  split_ifs <;> simp

theorem should_continue_loop_step {s : AgentState}
    (h : should_continue s = "loop") : s.step_count < s.max_steps := by
  unfold should_continue at h
  split_ifs at h with h₁ h₂ h₃ h₄
  · exact absurd h (by decide)
  · exact absurd h (by decide)
  · exact absurd h (by decide)
  · exact absurd h (by decide)
  · omega

/-! ### Projection corollaries of the frame lemmas -/

theorem retriever_node_step (encode : String → Nat)
    (f : String → Int → List String) (s : AgentState) :
    (retriever_node encode f s).1.step_count = s.step_count :=
  (retriever_node_frame encode f s).2.2.2.2.2.1

theorem retriever_node_max (encode : String → Nat)
    (f : String → Int → List String) (s : AgentState) :
    (retriever_node encode f s).1.max_steps = s.max_steps :=
  (retriever_node_frame encode f s).2.2.2.2.2.2.1

theorem generator_node_step (encode : String → Nat) (svc : ChatResponse)
    (s : AgentState) :
    (generator_node encode svc s).1.step_count = s.step_count :=
  (generator_node_frame encode svc s).2.2.2.1

theorem generator_node_max (encode : String → Nat) (svc : ChatResponse)
    (s : AgentState) :
    (generator_node encode svc s).1.max_steps = s.max_steps :=
  (generator_node_frame encode svc s).2.2.2.2.1

theorem critic_node_step (encode : String → Nat) (svc : ChatResponse)
    (parsed : Option PyJson) {s : AgentState} {r : AgentState × List ExtCall}
    (hr : critic_node encode svc parsed s = .ok r) :
    r.1.step_count = s.step_count :=
  (critic_node_frame encode svc parsed hr).2.2.2.2.2.2.1

theorem critic_node_max (encode : String → Nat) (svc : ChatResponse)
    (parsed : Option PyJson) {s : AgentState} {r : AgentState × List ExtCall}
    (hr : critic_node encode svc parsed s = .ok r) :
    r.1.max_steps = s.max_steps :=
  (critic_node_frame encode svc parsed hr).2.2.2.2.2.2.2.1

/-! ### Preservation of the ledger invariant -/

theorem budgetInv_initialize (q : String) {b : Int} (m : Int) (hb : 0 ≤ b) :
    BudgetInv (initialize_state q b m) := by
  unfold BudgetInv initialize_state sumValues
  simp
  omega

theorem budgetInv_planner (encode : String → Nat) (svc : ChatResponse)
    {s : AgentState} (h : BudgetInv s) : BudgetInv (planner_node encode svc s).1 := by
  by_cases hp : s.remaining_tokens < PLANNER_REQUIRED_BUDGET
  · rw [planner_node_degraded encode svc hp]
    exact budgetInv_ext rfl rfl rfl h
  · obtain ⟨t, ht⟩ := planner_node_run encode svc hp
    rw [ht]
    exact budgetInv_ext rfl rfl rfl
      (budgetInv_consume _ _ (budgetInv_ext rfl rfl rfl h))

theorem budgetInv_retriever (encode : String → Nat)
    (f : String → Int → List String) {s : AgentState} (h : BudgetInv s) :
    BudgetInv (retriever_node encode f s).1 := by
  by_cases hr : s.remaining_tokens - MIN_GENERATION_BUDGET ≤ 0
  · rw [retriever_node_empty encode f hr]
    exact budgetInv_ext rfl rfl rfl h
  · obtain ⟨t, ht⟩ := retriever_node_run encode f hr
    rw [ht]
    exact budgetInv_consume _ _ (budgetInv_ext rfl rfl rfl h)

theorem budgetInv_generator (encode : String → Nat) (svc : ChatResponse)
    {s : AgentState} (h : BudgetInv s) : BudgetInv (generator_node encode svc s).1 := by
  by_cases hg : s.remaining_tokens < GENERATOR_REQUIRED_BUDGET
  · rw [generator_node_degraded encode svc hg]
    exact budgetInv_ext rfl rfl rfl h
  · obtain ⟨t, ht⟩ := generator_node_run encode svc hg
    rw [ht]
    exact budgetInv_consume _ _ (budgetInv_ext rfl rfl rfl h)

theorem budgetInv_critic (encode : String → Nat) (svc : ChatResponse)
    (parsed : Option PyJson) {s : AgentState} {r : AgentState × List ExtCall}
    (hr : critic_node encode svc parsed s = .ok r) (h : BudgetInv s) :
    BudgetInv r.1 := by
  by_cases hc : s.remaining_tokens < CRITIC_REQUIRED_BUDGET
  · rw [critic_node_degraded encode svc parsed hc] at hr
    injection hr with hr
    rw [← hr]
    exact budgetInv_ext rfl rfl rfl h
  · cases hsc : critic_score parsed with
    | error e =>
      rw [critic_node_raises encode svc parsed hc hsc] at hr
      exact absurd hr (by simp)
    | ok q =>
      obtain ⟨t, ht⟩ := critic_node_run encode svc parsed hc hsc
      rw [ht] at hr
      injection hr with hr
      rw [← hr]
      exact budgetInv_consume _ _ (budgetInv_ext rfl rfl rfl h)

theorem budgetInv_summarizer (encode : String → Nat) (svc : ChatResponse)
    {s : AgentState} (h : BudgetInv s) : BudgetInv (summarizer_node encode svc s).1 := by
  by_cases hs : s.draft_answer ≠ "" ∧ SUMMARIZER_BUDGET ≤ s.remaining_tokens
  · obtain ⟨t, ht⟩ := summarizer_node_call encode svc hs
    rw [ht]
    exact budgetInv_ext rfl rfl rfl
      (budgetInv_consume _ _ (budgetInv_ext rfl rfl rfl h))
  · by_cases hd : s.draft_answer ≠ ""
    · rw [summarizer_node_copy encode svc hs hd]
      exact budgetInv_ext rfl rfl rfl h
    · rw [summarizer_node_fallback encode svc (by simpa using hd)]
      exact budgetInv_ext rfl rfl rfl h

theorem budgetInv_finalize {s : AgentState} (h : BudgetInv s) :
    BudgetInv (finalize_node s) :=
  budgetInv_ext rfl rfl rfl h

/-! ### One pass of the loop -/

theorem runPass_all_degraded (encode : String → Nat) (o : PassOracle)
    {s : AgentState} (hp : s.remaining_tokens < PLANNER_REQUIRED_BUDGET) :
    runPass encode o s =
      .ok {s with retrieved_chunks := [], quality_score := NEUTRAL_SCORE,
                  status := "INSUFFICIENT_BUDGET_FOR_GENERATION"} := by
  have h800 : s.remaining_tokens < 800 := hp
  have e1 : planner_node encode o.planner s =
      ({s with status := "INSUFFICIENT_BUDGET_FOR_PLANNING"}, []) :=
    planner_node_degraded encode o.planner hp
  have e2 : retriever_node encode o.similarity_search
        {s with status := "INSUFFICIENT_BUDGET_FOR_PLANNING"} =
      ({s with retrieved_chunks := [], status := "INSUFFICIENT_BUDGET_FOR_PLANNING"}, []) :=
    retriever_node_empty encode o.similarity_search
      (by show s.remaining_tokens - MIN_GENERATION_BUDGET ≤ 0
          have hM : MIN_GENERATION_BUDGET = 3000 := rfl
          omega)
  have e3 : generator_node encode o.generator
        {s with retrieved_chunks := [], status := "INSUFFICIENT_BUDGET_FOR_PLANNING"} =
      ({s with retrieved_chunks := [], status := "INSUFFICIENT_BUDGET_FOR_GENERATION"}, []) :=
    generator_node_degraded encode o.generator
      (by show s.remaining_tokens < GENERATOR_REQUIRED_BUDGET
          have hG : GENERATOR_REQUIRED_BUDGET = 2500 := rfl
          omega)
  have e4 : critic_node encode o.critic o.criticParsed
        {s with retrieved_chunks := [], status := "INSUFFICIENT_BUDGET_FOR_GENERATION"} =
      .ok ({s with retrieved_chunks := [], quality_score := NEUTRAL_SCORE,
                   status := "INSUFFICIENT_BUDGET_FOR_GENERATION"}, []) :=
    critic_node_degraded encode o.critic o.criticParsed
      (by show s.remaining_tokens < CRITIC_REQUIRED_BUDGET
          have hC : CRITIC_REQUIRED_BUDGET = 800 := rfl
          omega)
  unfold runPass
  rw [e1]
  dsimp only
  rw [e2]
  dsimp only
  rw [e3]
  dsimp only
  rw [e4]

theorem runPass_ok (encode : String → Nat) (o : PassOracle) (s : AgentState)
    (hps : parsedSafe o.criticParsed = true) :
    ∃ s₁, runPass encode o s = .ok s₁ ∧ s₁.max_steps = s.max_steps ∧
      (s₁.step_count = s.step_count + 1 ∨
        (s₁.step_count = s.step_count ∧ should_continue s₁ = "summarize")) := by
  by_cases hp : s.remaining_tokens < PLANNER_REQUIRED_BUDGET
  · refine ⟨_, runPass_all_degraded encode o hp, rfl, Or.inr ⟨rfl, ?_⟩⟩
    exact should_continue_of_degraded
      (show pyStartswith ("INSUFFICIENT_BUDGET_FOR_GENERATION") ("INSUFFICIENT_BUDGET") = true
        from by decide)
  · obtain ⟨t₁, ht₁⟩ := planner_node_run encode o.planner hp
    obtain ⟨r, hr⟩ := critic_node_ok_of_safe encode o.critic o.criticParsed
      ((generator_node encode o.generator
        ((retriever_node encode o.similarity_search
          ((planner_node encode o.planner s).1)).1)).1) hps
    refine ⟨r.1, ?_, ?_, Or.inl ?_⟩
    · unfold runPass
      rw [hr]
    · rw [critic_node_max encode o.critic o.criticParsed hr,
        generator_node_max, retriever_node_max, (planner_node_step encode o.planner s).1]
    · rw [critic_node_step encode o.critic o.criticParsed hr,
        generator_node_step, retriever_node_step, ht₁]
      rfl

/-! ### Termination of the routed loop -/

set_option maxHeartbeats 1000000 in
theorem runLoop_terminates (encode : String → Nat) :
    ∀ (os : List PassOracle) (s : AgentState),
      (∀ o ∈ os, parsedSafe o.criticParsed = true) →
      s.step_count ≤ s.max_steps →
      s.max_steps - s.step_count + 1 ≤ (os.length : Int) →
      ∃ f n, runLoop encode os s = .ok (f, n) ∧
        (n : Int) ≤ s.max_steps - s.step_count + 1 ∧
        (f.status = "COMPLETED" ∨ f.status = "COMPLETED_WITH_SUMMARY") := by
  intro os
  induction os with
  | nil =>
    intro s _ hstep hlen
    exfalso
    simp at hlen
    omega
  | cons o rest ih =>
    intro s hsafe hstep hlen
    obtain ⟨s₁, hpass, hmax, hdisj⟩ := runPass_ok encode o s (hsafe o (by simp))
    rw [runLoop_cons, hpass]
    dsimp only
    rcases should_continue_cases s₁ with hend | hsum | hloop
    · refine ⟨finalize_node s₁, 1, ?_, by push_cast; omega, Or.inl rfl⟩
      rw [hend, if_pos rfl]
    · refine ⟨(summarizer_node encode o.summarizer s₁).1, 1, ?_, by push_cast; omega,
        Or.inr (summarizer_node_status encode o.summarizer s₁)⟩
      rw [hsum, if_neg (by decide), if_pos rfl]
    · have hlt : s₁.step_count < s₁.max_steps := should_continue_loop_step hloop
      have hstep₁ : s₁.step_count = s.step_count + 1 := by
        rcases hdisj with h | ⟨h, hsum⟩
        · exact h
        · exact absurd (hsum ▸ hloop) (by simp)
      have hlen' : s₁.max_steps - s₁.step_count + 1 ≤ (rest.length : Int) := by
        simp at hlen
        omega
      obtain ⟨f, n, hrun, hn, hfs⟩ :=
        ih s₁ (fun o' ho' => hsafe o' (by simp [ho'])) (by omega) hlen'
      refine ⟨f, n + 1, ?_, by push_cast at hn ⊢; omega, hfs⟩
      rw [hloop, if_neg (by decide), if_neg (by decide), hrun]

theorem summarizer_node_step (encode : String → Nat) (svc : ChatResponse)
    (s : AgentState) :
    (summarizer_node encode svc s).1.step_count = s.step_count := by
  by_cases hs : s.draft_answer ≠ "" ∧ SUMMARIZER_BUDGET ≤ s.remaining_tokens
  · obtain ⟨t, ht⟩ := summarizer_node_call encode svc hs
    rw [ht]
    rfl
  · by_cases hd : s.draft_answer ≠ ""
    · rw [summarizer_node_copy encode svc hs hd]
    · rw [summarizer_node_fallback encode svc (by simpa using hd)]

/-! ### Claim theorems -/

/-- C9: `consume_tokens` adds `max(0, cost)` to the entry of the stage in
the ledger (creating it when absent), subtracts the same amount from
`remaining_tokens` floored at 0, and always succeeds (it is a total
function); it is not idempotent — two sequential charges of 100 to the
same stage add 200 — and a negative cost changes no numeric value. -/
theorem consume_tokens_spec (s : AgentState) (name : String) (cost : Int) :
    consume_tokens s name cost =
      {s with remaining_tokens := max (s.remaining_tokens - max 0 cost) 0,
              tokens_used := dictSet s.tokens_used name (dictGet s.tokens_used name + max 0 cost)} ∧
    dictGet (consume_tokens (consume_tokens s ("x") 100) ("x") 100).tokens_used ("x") =
      dictGet s.tokens_used ("x") + 200 ∧
    (cost < 0 → 0 ≤ s.remaining_tokens →
      (consume_tokens s name cost).remaining_tokens = s.remaining_tokens ∧
      ∀ k, dictGet (consume_tokens s name cost).tokens_used k = dictGet s.tokens_used k) := by
  refine ⟨rfl, ?_, fun hc hr => ⟨?_, fun k => ?_⟩⟩
  · simp [consume_tokens_eq, dictGet_dictSet]
    omega
  · show max (s.remaining_tokens - max 0 cost) 0 = s.remaining_tokens
    omega
  · simp only [consume_tokens_eq]
    rw [dictGet_dictSet]
    split_ifs with hk
    · subst hk
      omega
    · rfl

/-- Witness for C9: with 100 remaining tokens and an empty ledger, a
charge of -5 leaves both the remaining budget and the ledger entry
unchanged. -/
theorem consume_tokens_spec_witness :
    (consume_tokens (initialize_state ("q") 100 5) ("x") (-5)).remaining_tokens =
      (initialize_state ("q") 100 5).remaining_tokens ∧
    dictGet (consume_tokens (initialize_state ("q") 100 5) ("x") (-5)).tokens_used ("x") =
      dictGet (initialize_state ("q") 100 5).tokens_used ("x") :=
  ⟨((consume_tokens_spec (initialize_state ("q") 100 5) ("x") (-5)).2.2
      (by decide) (by decide)).1,
   ((consume_tokens_spec (initialize_state ("q") 100 5) ("x") (-5)).2.2
      (by decide) (by decide)).2 ("x")⟩

/-- C3: the Router decides by the first matching rule of the strict
precedence order (degraded status, low budget, quality, step ceiling,
otherwise loop); in particular a degradation status forces summarize
whatever the quality, and a budget at or below the threshold forces
summarize whatever the quality. -/
theorem should_continue_spec (s : AgentState) :
    (pyStartswith s.status ("INSUFFICIENT_BUDGET") = true →
      should_continue s = "summarize") ∧
    (pyStartswith s.status ("INSUFFICIENT_BUDGET") = false →
      s.remaining_tokens ≤ BUDGET_THRESHOLD → should_continue s = "summarize") ∧
    (pyStartswith s.status ("INSUFFICIENT_BUDGET") = false →
      BUDGET_THRESHOLD < s.remaining_tokens →
      QUALITY_THRESHOLD ≤ s.quality_score → should_continue s = "end") ∧
    (pyStartswith s.status ("INSUFFICIENT_BUDGET") = false →
      BUDGET_THRESHOLD < s.remaining_tokens →
      s.quality_score < QUALITY_THRESHOLD →
      s.max_steps ≤ s.step_count → should_continue s = "summarize") ∧
    (pyStartswith s.status ("INSUFFICIENT_BUDGET") = false →
      BUDGET_THRESHOLD < s.remaining_tokens →
      s.quality_score < QUALITY_THRESHOLD →
      s.step_count < s.max_steps → should_continue s = "loop") := by
  refine ⟨fun h => should_continue_of_degraded h, ?_, ?_, ?_, ?_⟩
  · intro h h2
    simp [should_continue, h, h2]
  · intro h h2 h3
    have h2' : ¬ s.remaining_tokens ≤ BUDGET_THRESHOLD := not_le.mpr h2
    simp [should_continue, h, h2', h3]
  · intro h h2 h3 h4
    have h2' : ¬ s.remaining_tokens ≤ BUDGET_THRESHOLD := not_le.mpr h2
    have h3' : ¬ QUALITY_THRESHOLD ≤ s.quality_score := not_le.mpr h3
    simp [should_continue, h, h2', h3', h4]
  · intro h h2 h3 h4
    have h2' : ¬ s.remaining_tokens ≤ BUDGET_THRESHOLD := not_le.mpr h2
    have h3' : ¬ QUALITY_THRESHOLD ≤ s.quality_score := not_le.mpr h3
    have h4' : ¬ s.max_steps ≤ s.step_count := not_le.mpr h4
    simp [should_continue, h, h2', h3', h4']

/-- Witness for C3: a degraded status forces summarize even at quality
0.9, and a clean high-quality state ends. -/
theorem should_continue_spec_witness :
    should_continue ⟨"q", "", [], "d", "", 10000, 600, [], 1, 5, mkRat 9 10,
      "INSUFFICIENT_BUDGET_FOR_PLANNING"⟩ = "summarize" ∧
    should_continue ⟨"q", "", [], "d", "", 10000, 6000, [], 1, 5, mkRat 9 10,
      "INIT"⟩ = "end" :=
  ⟨(should_continue_spec _).1 (by decide),
   (should_continue_spec _).2.2.1 (by decide) (by decide) (by decide)⟩

/-- C4: below the required budget (800 for the Planner, 2500 for the
Generator) the node performs no external call, mutates no ledger field,
sets the corresponding degradation status, and leaves every other field
unchanged. -/
theorem budget_gate_spec (encode : String → Nat) (svcP svcG : ChatResponse)
    (s : AgentState) :
    (s.remaining_tokens < PLANNER_REQUIRED_BUDGET →
      planner_node encode svcP s =
        ({s with status := "INSUFFICIENT_BUDGET_FOR_PLANNING"}, [])) ∧
    (s.remaining_tokens < GENERATOR_REQUIRED_BUDGET →
      generator_node encode svcG s =
        ({s with status := "INSUFFICIENT_BUDGET_FOR_GENERATION"}, [])) :=
  ⟨fun h => planner_node_degraded encode svcP h,
   fun h => generator_node_degraded encode svcG h⟩

/-- Witness for C4: with 0 remaining tokens both gates fire. -/
theorem budget_gate_spec_witness :
    planner_node (fun _ => 0) ⟨none, none⟩ (initialize_state ("q") 0 5) =
      ({initialize_state ("q") 0 5 with status := "INSUFFICIENT_BUDGET_FOR_PLANNING"}, []) ∧
    generator_node (fun _ => 0) ⟨none, none⟩ (initialize_state ("q") 0 5) =
      ({initialize_state ("q") 0 5 with status := "INSUFFICIENT_BUDGET_FOR_GENERATION"}, []) :=
  ⟨(budget_gate_spec (fun _ => 0) ⟨none, none⟩ ⟨none, none⟩ _).1 (by decide),
   (budget_gate_spec (fun _ => 0) ⟨none, none⟩ ⟨none, none⟩ _).2 (by decide)⟩

/-- Counterexample for C5: on the degraded path (0 remaining tokens)
`planner_node` does NOT increment `step_count`, contradicting the claim
that it increments on every invocation, including degraded ones. -/
theorem planner_degraded_no_increment :
    (planner_node (fun _ => 0) ⟨none, none⟩
        ⟨"q", "", [], "", "", 1000, 0, [], 3, 5, 0, "INIT"⟩).1.step_count ≠
      (⟨"q", "", [], "", "", 1000, 0, [], 3, 5, 0, "INIT"⟩ : AgentState).step_count + 1 := by
  decide

/-- C5 (amended): `planner_node` increments `step_count` by exactly 1 on
every successful invocation and leaves it unchanged on the degraded
insufficient-budget path; `step_count` is monotonically non-decreasing
across all operations. -/
theorem planner_step_count_spec (encode : String → Nat) (svc : ChatResponse)
    (f : String → Int → List String) (parsed : Option PyJson)
    (name : String) (cost : Int) (s : AgentState) :
    (PLANNER_REQUIRED_BUDGET ≤ s.remaining_tokens →
      (planner_node encode svc s).1.step_count = s.step_count + 1) ∧
    (s.remaining_tokens < PLANNER_REQUIRED_BUDGET →
      (planner_node encode svc s).1.step_count = s.step_count) ∧
    s.step_count ≤ (planner_node encode svc s).1.step_count ∧
    (retriever_node encode f s).1.step_count = s.step_count ∧
    (generator_node encode svc s).1.step_count = s.step_count ∧
    (∀ r, critic_node encode svc parsed s = .ok r → r.1.step_count = s.step_count) ∧
    (summarizer_node encode svc s).1.step_count = s.step_count ∧
    (finalize_node s).step_count = s.step_count ∧
    (consume_tokens s name cost).step_count = s.step_count := by
  refine ⟨?_, ?_, ?_, retriever_node_step encode f s, generator_node_step encode svc s,
    fun r hr => critic_node_step encode svc parsed hr,
    summarizer_node_step encode svc s, rfl, rfl⟩
  · intro h
    obtain ⟨t, ht⟩ := planner_node_run encode svc (not_lt.mpr h)
    rw [ht]
    rfl
  · intro h
    rw [planner_node_degraded encode svc h]
  · rcases (planner_node_step encode svc s).2.2 with h | ⟨h, _⟩ <;> omega

/-- Witness for C5: a successful planner invocation takes `step_count`
from 0 to 1. -/
theorem planner_step_count_witness :
    (planner_node (fun _ => 0) ⟨some ("p"), some (0, 0)⟩
        (initialize_state ("q") 10000 5)).1.step_count =
      (initialize_state ("q") 10000 5).step_count + 1 :=
  (planner_step_count_spec (fun _ => 0) ⟨some ("p"), some (0, 0)⟩ (fun _ _ => [])
    none ("x") 0 (initialize_state ("q") 10000 5)).1 (by decide)

/-- C6: the summarize action always terminates with status
`COMPLETED_WITH_SUMMARY`; on the degraded path (fewer than 400 remaining
tokens) a nonempty draft is copied verbatim into `final_answer`, an empty
draft yields the fixed fallback message, and in both degraded cases no
external call happens and the ledger is untouched. -/
theorem summarizer_spec (encode : String → Nat) (svc : ChatResponse)
    (s : AgentState) :
    (summarizer_node encode svc s).1.status = "COMPLETED_WITH_SUMMARY" ∧
    (s.remaining_tokens < SUMMARIZER_BUDGET → s.draft_answer ≠ "" →
      summarizer_node encode svc s =
        ({s with final_answer := s.draft_answer, status := "COMPLETED_WITH_SUMMARY"}, [])) ∧
    (s.remaining_tokens < SUMMARIZER_BUDGET → s.draft_answer = "" →
      summarizer_node encode svc s =
        ({s with final_answer := SUMMARIZER_FALLBACK, status := "COMPLETED_WITH_SUMMARY"}, [])) := by
  refine ⟨summarizer_node_status encode svc s, fun hb hd => ?_, fun hb hd => ?_⟩
  · exact summarizer_node_copy encode svc (fun h => absurd h.2 (not_le.mpr hb)) hd
  · exact summarizer_node_fallback encode svc hd

/-- Witness for C6: with 100 remaining tokens, a draft is copied verbatim
and a missing draft produces the fallback message. -/
theorem summarizer_spec_witness :
    (summarizer_node (fun _ => 0) ⟨none, none⟩
        ⟨"q", "", [], "d", "", 1000, 100, [], 1, 5, 0, "INIT"⟩).1.final_answer = "d" ∧
    (summarizer_node (fun _ => 0) ⟨none, none⟩
        ⟨"q", "", [], "", "", 1000, 100, [], 1, 5, 0, "INIT"⟩).1.final_answer =
      SUMMARIZER_FALLBACK := by
  constructor
  · rw [(summarizer_spec (fun _ => 0) ⟨none, none⟩ _).2.1 (by decide) (by decide)]
  · rw [(summarizer_spec (fun _ => 0) ⟨none, none⟩ _).2.2 (by decide) rfl]

/-- C7: with affordable context budget `remaining_tokens - 3000`, a
non-positive value yields an empty chunk list without querying the index;
otherwise the requested chunk count equals
`clamp(affordable / 400, 1, 10)`, lies in `[1, 10]`, and is non-decreasing
in the affordable budget. -/
theorem retriever_budget_spec (encode : String → Nat)
    (f : String → Int → List String) (s : AgentState) :
    (s.remaining_tokens - MIN_GENERATION_BUDGET ≤ 0 →
      retriever_node encode f s = ({s with retrieved_chunks := []}, [])) ∧
    (0 < s.remaining_tokens - MIN_GENERATION_BUDGET →
      (retriever_node encode f s).2 =
        [ExtCall.search s.user_query
          (retriever_top_k (s.remaining_tokens - MIN_GENERATION_BUDGET))] ∧
      retriever_top_k (s.remaining_tokens - MIN_GENERATION_BUDGET) =
        max 1 (min ((s.remaining_tokens - MIN_GENERATION_BUDGET) / TOKENS_PER_CHUNK) 10) ∧
      1 ≤ retriever_top_k (s.remaining_tokens - MIN_GENERATION_BUDGET) ∧
      retriever_top_k (s.remaining_tokens - MIN_GENERATION_BUDGET) ≤ 10) ∧
    (∀ a₁ a₂ : Int, 0 < a₁ → a₁ ≤ a₂ →
      retriever_top_k a₁ ≤ retriever_top_k a₂) := by
  refine ⟨fun h => retriever_node_empty encode f h, fun h => ?_, fun a₁ a₂ h₁ h₂ => ?_⟩
  · obtain ⟨t, ht⟩ := retriever_node_run encode f (s := s) (by omega)
    refine ⟨by rw [ht], ?_, ?_, ?_⟩ <;>
      · unfold retriever_top_k
        generalize (s.remaining_tokens - MIN_GENERATION_BUDGET) / TOKENS_PER_CHUNK = d
        omega
  · have hd : a₁ / TOKENS_PER_CHUNK ≤ a₂ / TOKENS_PER_CHUNK :=
      Int.ediv_le_ediv (by decide) h₂
    unfold retriever_top_k
    omega

/-- Witness for C7: 1000 remaining tokens yield the empty-chunk path, and
10000 remaining tokens request exactly 10 chunks. -/
theorem retriever_budget_spec_witness :
    retriever_node (fun _ => 0) (fun _ _ => []) (initialize_state ("q") 1000 5) =
      ({initialize_state ("q") 1000 5 with retrieved_chunks := []}, []) ∧
    (retriever_node (fun _ => 0) (fun _ _ => []) (initialize_state ("q") 10000 5)).2 =
      [ExtCall.search ("q") 10] := by
  constructor
  · exact (retriever_budget_spec (fun _ => 0) (fun _ _ => []) _).1 (by decide)
  · rw [((retriever_budget_spec (fun _ => 0) (fun _ _ => []) _).2.1 (by decide)).1]
    decide

/-- C10: `retriever_node` never touches status, step count, plan, draft,
final answer, or quality score (insufficient budget yields only an empty
chunk list, no degradation status), and on the no-budget path it also
leaves the ledger fields untouched. -/
theorem retriever_frame_spec (encode : String → Nat)
    (f : String → Int → List String) (s : AgentState) :
    (retriever_node encode f s).1.status = s.status ∧
    (retriever_node encode f s).1.step_count = s.step_count ∧
    (retriever_node encode f s).1.plan = s.plan ∧
    (retriever_node encode f s).1.draft_answer = s.draft_answer ∧
    (retriever_node encode f s).1.final_answer = s.final_answer ∧
    (retriever_node encode f s).1.quality_score = s.quality_score ∧
    (s.remaining_tokens - MIN_GENERATION_BUDGET ≤ 0 →
      (retriever_node encode f s).1.remaining_tokens = s.remaining_tokens ∧
      (retriever_node encode f s).1.tokens_used = s.tokens_used) := by
  have hf := retriever_node_frame encode f s
  refine ⟨hf.2.2.2.2.2.2.2.2, hf.2.2.2.2.2.1, hf.2.1, hf.2.2.1, hf.2.2.2.1,
    hf.2.2.2.2.2.2.2.1, fun h => ?_⟩
  rw [retriever_node_empty encode f h]
  exact ⟨rfl, rfl⟩

/-- Witness for C10: with 1000 remaining tokens the no-budget path leaves
the ledger untouched. -/
theorem retriever_frame_spec_witness :
    (retriever_node (fun _ => 0) (fun _ _ => []) (initialize_state ("q") 1000 5)).1.remaining_tokens =
      (initialize_state ("q") 1000 5).remaining_tokens ∧
    (retriever_node (fun _ => 0) (fun _ _ => []) (initialize_state ("q") 1000 5)).1.tokens_used =
      (initialize_state ("q") 1000 5).tokens_used :=
  (retriever_frame_spec (fun _ => 0) (fun _ _ => [])
    (initialize_state ("q") 1000 5)).2.2.2.2.2.2 (by decide)

/-- Counterexample for C2: with a negative initial budget (reachable, the
API passes a negative `token_budget` through), the freshly initialized
state already violates the invariant and has negative remaining tokens. -/
theorem negative_budget_breaks_invariant :
    ¬ ((initialize_state ("q") (-1) 5).remaining_tokens =
        max 0 ((initialize_state ("q") (-1) 5).total_token_budget -
          sumValues (initialize_state ("q") (-1) 5).tokens_used) ∧
      0 ≤ (initialize_state ("q") (-1) 5).remaining_tokens) := by
  decide

/-- C2 (amended): for every state reachable from `initialize_state` with
a nonnegative initial budget by any sequence of the pipeline operations,
`remaining_tokens = max 0 (total_token_budget - sum(tokens_used))` and
`remaining_tokens` is never negative. -/
theorem reachable_budget_invariant {s : AgentState} (h : Reachable s) :
    s.remaining_tokens =
      max 0 (s.total_token_budget - sumValues s.tokens_used) ∧
    0 ≤ s.remaining_tokens := by
  have hinv : BudgetInv s := by
    induction h with
    | init q b m hb => exact budgetInv_initialize q m hb
    | planner encode svc h ih => exact budgetInv_planner encode svc ih
    | retriever encode f h ih => exact budgetInv_retriever encode f ih
    | generator encode svc h ih => exact budgetInv_generator encode svc ih
    | critic encode svc parsed h hr ih => exact budgetInv_critic encode svc parsed hr ih
    | summarizer encode svc h ih => exact budgetInv_summarizer encode svc ih
    | finalize h ih => exact budgetInv_finalize ih
    | consume name cost h ih => exact budgetInv_consume name cost ih
  exact ⟨hinv, by rw [show s.remaining_tokens = _ from hinv]; exact le_max_left 0 _⟩

/-- Witness for C2: the invariant holds after a planner invocation on a
freshly initialized state with budget 10000. -/
theorem reachable_budget_invariant_witness :
    (planner_node (fun _ => 0) ⟨some ("p"), some (300, 100)⟩
        (initialize_state ("q") 10000 5)).1.remaining_tokens =
      max 0 ((planner_node (fun _ => 0) ⟨some ("p"), some (300, 100)⟩
          (initialize_state ("q") 10000 5)).1.total_token_budget -
        sumValues (planner_node (fun _ => 0) ⟨some ("p"), some (300, 100)⟩
          (initialize_state ("q") 10000 5)).1.tokens_used) ∧
    0 ≤ (planner_node (fun _ => 0) ⟨some ("p"), some (300, 100)⟩
        (initialize_state ("q") 10000 5)).1.remaining_tokens :=
  reachable_budget_invariant
    (Reachable.planner (fun _ => 0) ⟨some ("p"), some (300, 100)⟩
      (Reachable.init ("q") 10000 5 (by decide)))

/-- C8 (failing input): when the critic service returns syntactically
valid JSON that is not an object — here the array text `[0.9]`, parsed by
`json.loads` into a list — `parsed.get("score", 0.7)` raises an
`AttributeError` that the `except (json.JSONDecodeError, ValueError,
TypeError)` clause does not catch, so the error propagates instead of
falling back to the neutral 0.7. -/
theorem critic_attribute_error :
    critic_node (fun _ => 0) ⟨some ("[0.9]"), some (0, 0)⟩ (some PyJson.jarr)
        ⟨"q", "", [], "d", "", 10000, 10000, [], 1, 5, 0, "INIT"⟩ =
      .error ("AttributeError") := by
  rfl

/-- Counterexample for C1: a state entered through a `loop` decision in
which the subsequent pass neither decreases `remaining_tokens` nor
increases `step_count` (every stage degrades; the pass terminates via the
router instead). -/
theorem loop_progress_cex :
    should_continue ⟨"q", "", [], "d", "", 10000, 600, [("planner", 9400)], 1, 5,
        mkRat 1 2, "INIT"⟩ = "loop" ∧
    runPass (fun _ => 0)
        ⟨⟨none, none⟩, fun _ _ => [], ⟨none, none⟩, ⟨none, none⟩, none, ⟨none, none⟩⟩
        ⟨"q", "", [], "d", "", 10000, 600, [("planner", 9400)], 1, 5,
          mkRat 1 2, "INIT"⟩ =
      .ok ⟨"q", "", [], "d", "", 10000, 600, [("planner", 9400)], 1, 5,
        mkRat 7 10, "INSUFFICIENT_BUDGET_FOR_GENERATION"⟩ := by
  constructor
  · decide
  · rfl

/-- C1 (amended): for any budget `b > 0` and `maxSteps m ≥ 1`, under any
external-service behaviour on which the critic does not raise (its parse
outcome is a failure or a dict), the pipeline loop reaches a terminal
status `COMPLETED` or `COMPLETED_WITH_SUMMARY` within at most `m + 1`
router evaluations.  (The per-pass progress clause of the original claim
is weakened: a pass either increments `step_count` or ends in a
degradation status on which the router immediately summarizes — see the
counterexample for a loop pass that leaves both `remaining_tokens` and
`step_count` unchanged.) -/
theorem pipeline_liveness (encode : String → Nat) (os : List PassOracle)
    (q : String) (b m : Int) (_hb : 0 < b) (hm : 1 ≤ m)
    (hsafe : ∀ o ∈ os, parsedSafe o.criticParsed = true)
    (hlen : m + 1 ≤ (os.length : Int)) :
    ∃ f n, runLoop encode os (initialize_state q b m) = .ok (f, n) ∧
      (n : Int) ≤ m + 1 ∧
      (f.status = "COMPLETED" ∨ f.status = "COMPLETED_WITH_SUMMARY") := by
  obtain ⟨f, n, h1, h2, h3⟩ :=
    runLoop_terminates encode os (initialize_state q b m) hsafe
      (show (0 : Int) ≤ m by omega)
      (show m - 0 + 1 ≤ (os.length : Int) by omega)
  have h2' : (n : Int) ≤ m - 0 + 1 := h2
  exact ⟨f, n, h1, by omega, h3⟩

/-- Witness for C1: budget 10000, one allowed step, two oracle passes of
cost zero; the loop summarizes at the first router evaluation. -/
theorem pipeline_liveness_witness :
    ∃ f n,
      runLoop (fun _ => 0)
          [⟨⟨some ("p"), some (0, 0)⟩, fun _ _ => [], ⟨some ("a"), some (0, 0)⟩,
            ⟨some ("c"), some (0, 0)⟩, none, ⟨some ("s"), some (0, 0)⟩⟩,
           ⟨⟨some ("p"), some (0, 0)⟩, fun _ _ => [], ⟨some ("a"), some (0, 0)⟩,
            ⟨some ("c"), some (0, 0)⟩, none, ⟨some ("s"), some (0, 0)⟩⟩]
          (initialize_state ("hi") 10000 1) = .ok (f, n) ∧
      (n : Int) ≤ 1 + 1 ∧
      (f.status = "COMPLETED" ∨ f.status = "COMPLETED_WITH_SUMMARY") :=
  pipeline_liveness (fun _ => 0) _ ("hi") 10000 1 (by decide) (by decide)
    (by decide) (by decide)

end TokenGating
